import Mathlib

set_option maxRecDepth 100000

/-!
Shallow embedding of the chat backend in
`src/OrkinosaiCMS.Web/PythonBackend/app.py`: language detection,
knowledge-source retrieval, system-prompt composition, canned (mock)
responses, and the `/api/chat` handler.  Python strings are modelled as
Lean `String` (a sequence of Unicode scalar values, matching the Python
character-based indexing for the alphabet this backend handles); Python
`None`-able values as `Option`; exceptions from external collaborators as
`Except String`.
-/

/-- Characters removed by Python `str.strip()` (ASCII whitespace:
space, tab, newline, carriage return, vertical tab, form feed). -/
def isPySpace (c : Char) : Bool :=
  c = ' ' || c = '\t' || c = '\n' || c = '\r' || c = Char.ofNat 11 || c = Char.ofNat 12

/-- Python `str.lower()`, character-wise, for the alphabet the backend
handles: ASCII letters plus the Turkish uppercase letters Ç Ğ Ö Ş Ü
(İ is mapped to plain `i`; Python produces `i` plus a combining dot for
İ, a difference no claim touches).  All other characters are fixed. -/
def pyCharLower (c : Char) : Char :=
  if 'A' ≤ c && c ≤ 'Z' then Char.ofNat (c.toNat + 32)
  else if c = 'Ç' then 'ç'
  else if c = 'Ğ' then 'ğ'
  else if c = 'İ' then 'i'
  else if c = 'Ö' then 'ö'
  else if c = 'Ş' then 'ş'
  else if c = 'Ü' then 'ü'
  else c

/-- Python `text.lower()` (character-wise). -/
def pyLower (s : String) : String := ⟨s.data.map pyCharLower⟩

/-- Strip leading and trailing whitespace from a character list. -/
def stripList (l : List Char) : List Char :=
  ((l.dropWhile isPySpace).reverse.dropWhile isPySpace).reverse

/-- Python `text.strip()`. -/
def pyStrip (s : String) : String := ⟨stripList s.data⟩

/-- `startsWithL needle l` : `needle` is a prefix of `l`. -/
def startsWithL : List Char → List Char → Bool
  | [], _ => true
  | _ :: _, [] => false
  | a :: as, b :: bs => a = b && startsWithL as bs

/-- `containsSub needle l` : `needle` occurs contiguously inside `l`
(the Python `in` operator on strings). -/
def containsSub (needle : List Char) : List Char → Bool
  | [] => startsWithL needle []
  | c :: rest => startsWithL needle (c :: rest) || containsSub needle rest

/-- Python `needle in haystack` for strings. -/
def pyIn (needle haystack : String) : Bool :=
  containsSub needle.data haystack.data

/-- Python `word.endswith(suffix)`. -/
def pyEndsWith (word suffix : String) : Bool :=
  startsWithL suffix.data.reverse word.data.reverse

/-- Word characters for the regex `\b\w+\b` (Python `re` is Unicode-aware;
restricted here to the alphabet the backend handles: ASCII alphanumerics,
underscore, and Turkish letters). -/
def isWordChar (c : Char) : Bool :=
  ('a' ≤ c && c ≤ 'z') || ('A' ≤ c && c ≤ 'Z') || ('0' ≤ c && c ≤ '9') || c = '_'
    || c ∈ ['ç', 'ğ', 'ı', 'ö', 'ş', 'ü', 'Ç', 'Ğ', 'İ', 'Ö', 'Ş', 'Ü']

/-- Accumulator pass splitting a character list into maximal runs of
word characters (the matches of `\b\w+\b`). -/
def tokensAux : List Char → List Char → List String
  | [], acc => if acc.isEmpty then [] else [⟨acc.reverse⟩]
  | c :: rest, acc =>
    if isWordChar c then tokensAux rest (c :: acc)
    else if acc.isEmpty then tokensAux rest []
    else ⟨acc.reverse⟩ :: tokensAux rest []

/-- Python `re.findall(r"\b\w+\b", s)`.  (The source wraps the result in
`set(...)`; only membership and existential checks are performed on it,
for which the list of matches is equivalent.) -/
def findWords (s : String) : List String := tokensAux s.data []

/-- `turkish_chars` from `detect_language` (app.py line 237). -/
def turkish_chars : List Char := ['ç', 'ğ', 'ı', 'ö', 'ş', 'ü']

/-- `strong_turkish_words` from `detect_language` (app.py lines 241-243). -/
def strong_turkish_words : List String :=
  ["merhaba", "nasıl", "nedir", "nelerdir", "hakkında",
   "hizmetleriniz", "çözümleriniz", "danışmanlık", "misiniz",
   "musunuz", "miyim"]

/-- `turkish_suffixes` from `detect_language` (app.py line 247). -/
def turkish_suffixes : List String := ["misiniz", "musunuz", "midir", "müdür", "nelerdir"]

/-- `detect_language` (app.py lines 227-273): Turkish/English heuristic.
Returns "tr" or "en". -/
def detect_language (text : String) : String :=
  let text_lower := pyStrip (pyLower text)
  if text_lower.length < 3 then "en"
  else if turkish_chars.any (fun c => text_lower.data.contains c) then "tr"
  else
    let words := findWords text_lower
    if words.any (fun w => strong_turkish_words.contains w) then "tr"
    else if words.any (fun w => turkish_suffixes.any (fun suf => pyEndsWith w suf)) then "tr"
    else "en"

/-- The `Zoota.KnowledgeBase` section of `appsettings.json` as read by
`get_mock_response` (keys `Services`, `Website`); absent keys are `none`. -/
structure KnowledgeBase where
  services : Option (List String)
  website : Option String

/-- The `Zoota` section of the configuration as read by the core
(keys `SystemPrompt`, `KnowledgeBase`); absent keys are `none`. -/
structure ZootaConfig where
  systemPrompt : Option String
  knowledgeBase : Option KnowledgeBase

/-- The loaded `appsettings.json`, restricted to the keys the core reads.
The process-global `config` is `Option Config` (`None` when loading failed). -/
structure Config where
  zoota : Option ZootaConfig

/-- Python character slicing `s[:n]`: the first `n` characters. -/
def pyTake (s : String) (n : Nat) : String := ⟨s.data.take n⟩

/-- Python truthiness for an optional string: `None` and `""` are falsy
(`s or default` / `if s:`). -/
def pyOrStr (s : Option String) (default : String) : String :=
  match s with
  | none => default
  | some x => if x = "" then default else x

/-- One row of the `WebsiteContents` query (columns Title, Content, Url,
Description; the text columns may be NULL/empty). -/
structure WebsiteContent where
  title : String
  content : Option String
  url : String
  description : Option String

/-- The row of the `LinkedInProfiles` query (columns FullName, Headline,
Summary, Experience, Skills, Location). -/
structure LinkedInProfile where
  fullName : String
  headline : String
  summary : Option String
  experience : Option String
  skills : Option String
  location : String

/-- One row of the `TrainingData` query (columns Category, Content, Source). -/
structure TrainingRow where
  category : String
  content : String
  source : String

/-- The external data collaborator, as observed by
`get_training_data_from_db`: the result of each of its three queries
(already bounded and ordered by the SQL: TOP 50 / TOP 1 / TOP 20, active
rows only).  A query that raises is an `Except.error`. -/
structure DBResult where
  websiteContents : Except String (List WebsiteContent)
  linkedinProfile : Except String (Option LinkedInProfile)
  trainingRows : Except String (List TrainingRow)

/-- Block built for one website-content row (app.py lines 176-180):
a Page line with the title, a URL line, the description (empty-string
default), and the body truncated to its first 1000 characters. -/
def formatWebsiteContent (r : WebsiteContent) : String :=
  let content_preview :=
    match r.content with
    | some c => if c = "" then "" else pyTake c 1000
    | none => ""
  "Page: " ++ r.title ++ "\nURL: " ++ r.url ++ "\n" ++ pyOrStr r.description "" ++ "\n"
    ++ content_preview

/-- Block built for the LinkedIn profile row (app.py lines 190-201). -/
def formatLinkedInProfile (p : LinkedInProfile) : String :=
  let experienceText :=
    match p.experience with
    | some e => if e = "" then "N/A" else pyTake e 500
    | none => "N/A"
  "\nLinkedIn Profile: " ++ p.fullName
    ++ "\nHeadline: " ++ p.headline
    ++ "\nLocation: " ++ p.location
    ++ "\nSummary: " ++ pyOrStr p.summary "N/A"
    ++ "\nKey Skills: " ++ pyOrStr p.skills "N/A"
    ++ "\nExperience: " ++ experienceText
    ++ "\n"

/-- Block built for one supplementary training row (app.py line 213):
`f"[{category}] {content[:500]}"`. -/
def formatTrainingRow (r : TrainingRow) : String :=
  "[" ++ r.category ++ "] " ++ pyTake r.content 500

/-- Does any of the three queries fail? (Any raised exception is caught by
`get_training_data_from_db`.) -/
def dbFailed (d : DBResult) : Bool :=
  d.websiteContents.toOption.isNone || d.linkedinProfile.toOption.isNone
    || d.trainingRows.toOption.isNone

/-- The `training_context` list accumulated when no query fails
(empty when every query returns zero rows, or on failure). -/
def dbBlocks (d : DBResult) : List String :=
  match d.websiteContents, d.linkedinProfile, d.trainingRows with
  | .ok cs, .ok prof, .ok rows =>
    cs.map formatWebsiteContent
      ++ (match prof with | some p => [formatLinkedInProfile p] | none => [])
      ++ rows.map formatTrainingRow
  | _, _, _ => []

/-- `get_training_data_from_db` (app.py lines 157-225).  `db = none` models
an absent `db_connection` global.  A query raising aborts the accumulation
and the surrounding `except` returns `None`; otherwise the collected blocks
are joined with `"\n\n---\n\n"`, with `None` for an empty collection. -/
def get_training_data_from_db (db : Option DBResult) : Option String :=
  match db with
  | none => none
  | some d =>
    match d.websiteContents with
    | .error _ => none
    | .ok cs =>
      match d.linkedinProfile with
      | .error _ => none
      | .ok prof =>
        match d.trainingRows with
        | .error _ => none
        | .ok rows =>
          let training_context :=
            cs.map formatWebsiteContent
              ++ (match prof with | some p => [formatLinkedInProfile p] | none => [])
              ++ rows.map formatTrainingRow
          if training_context.isEmpty then none
          else some (String.intercalate "\n\n---\n\n" training_context)

/-- The SystemPrompt key of the Zoota section, with empty-string default
at each level, and empty sections when no configuration is loaded
(app.py lines 279-280). -/
def basePromptOf (config : Option Config) : String :=
  match config with
  | none => ""
  | some c =>
    match c.zoota with
    | none => ""
    | some z => z.systemPrompt.getD ""

/-- The language directive appended to the base prompt
(app.py lines 282-291); `user_message` is falsy when `None` or empty. -/
def languageDirective (user_message : Option String) : String :=
  match user_message with
  | some m =>
    if m = "" then
      "\n\nDEFAULT LANGUAGE: ENGLISH. Respond in English unless the user clearly uses Turkish."
    else if detect_language m = "tr" then
      "\n\nThe user is asking in TURKISH. You MUST respond COMPLETELY in Turkish. Do not mix languages."
    else
      "\n\nThe user is asking in ENGLISH. You MUST respond in ENGLISH. This is the default language."
  | none =>
    "\n\nDEFAULT LANGUAGE: ENGLISH. Respond in English unless the user clearly uses Turkish."

/-- `build_enhanced_system_prompt` (app.py lines 275-307): base prompt from
configuration, plus a language directive, plus the database context when
available. -/
def build_enhanced_system_prompt (config : Option Config) (db : Option DBResult)
    (user_message : Option String) : String :=
  let base_prompt := basePromptOf config ++ languageDirective user_message
  match get_training_data_from_db db with
  | some training_data =>
    if training_data = "" then base_prompt
    else
      base_prompt
        ++ "\n\nYou have been trained on the following information about OrkinosAI and its team:\n\n"
        ++ training_data
        ++ "\n\nUse this information to provide accurate, specific, and helpful responses. Always cite the website or LinkedIn profile when relevant."
  | none => base_prompt

/-- The KnowledgeBase section of the Zoota section, as read by
`get_mock_response` (app.py lines 318-319). -/
def kbOf (config : Option Config) : Option KnowledgeBase :=
  match config with
  | none => none
  | some c =>
    match c.zoota with
    | none => none
    | some z => z.knowledgeBase

/-- The Services list of the knowledge base, defaulting to the empty list. -/
def kbServices (kb : Option KnowledgeBase) : List String :=
  match kb with
  | none => []
  | some k => k.services.getD []

/-- The Website value of the knowledge base, with its hard-coded default. -/
def kbWebsite (kb : Option KnowledgeBase) : String :=
  match kb with
  | none => "https://www.orkinosai.com"
  | some k => k.website.getD "https://www.orkinosai.com"

/-- Turkish greeting response (app.py line 324). -/
def trGreetingResponse : String :=
  "Merhaba! Ben Zoota, yapay zeka asistanınızım. Şu anda demo modunda çalışıyorum. OrkinosAI hakkında size nasıl yardımcı olabilirim?"

/-- Turkish AI/ML response (app.py line 337). -/
def trAIResponse : String :=
  "Azure OpenAI, TensorFlow ve PyTorch kullanarak Yapay Zeka ve Makine Öğrenmesi çözümleri sunuyoruz. Uzmanlık alanlarımız arasında konuşma yapay zekası, özel yapay zeka modelleri ve akıllı otomasyon sistemleri bulunmaktadır. İşletmelerin yapay zeka gücünden yararlanmalarına yardımcı oluyoruz."

/-- Turkish Azure/cloud response (app.py line 340). -/
def trAzureResponse : String :=
  "Azure Bulut Çözümlerinde uzmanız! Bulut geçişi, mimari tasarım, DevOps ve sürekli Azure yönetimi hizmetleri sunuyoruz. Microsoft İş Ortağı olarak, kuruluşların Azure\x27un tüm gücünden yararlanmalarına yardımcı oluyoruz."

/-- Turkish default response (app.py line 347). -/
def trDefaultResponse : String :=
  "OrkinosAI\x27ın hizmetleri, uzmanlık alanları veya teknoloji çözümleri hakkında size yardımcı olmaktan mutluluk duyarım. Web geliştirme, AI/ML, Azure bulut, SharePoint/M365 veya diğer hizmetlerimiz hakkında soru sorabilirsiniz!"

/-- English greeting response (app.py line 352). -/
def enGreetingResponse : String :=
  "Hello! I\x27m Zoota, your AI assistant. I\x27m currently running in demo mode. How can I help you learn about OrkinosAI?"

/-- English web-development response (app.py line 365). -/
def enWebResponse : String :=
  "Yes! We specialize in web development using modern technologies like .NET, Blazor, React, and more. We build custom web applications, CMS solutions, and enterprise web platforms. We also offer web CMS solutions using Umbraco and custom frameworks."

/-- English AI/ML response (app.py line 368). -/
def enAIResponse : String :=
  "We provide AI & Machine Learning solutions using Azure OpenAI, TensorFlow, and PyTorch. Our expertise includes conversational AI (like me!), custom AI models, intelligent automation, and AI-powered business solutions to help organizations leverage AI effectively."

/-- English Azure/cloud response (app.py line 371). -/
def enAzureResponse : String :=
  "We\x27re Azure experts! We offer cloud migration, architecture design, DevOps, security, and ongoing Azure management. As a Microsoft Partner, we help organizations move to Azure and optimize their cloud infrastructure for performance and cost."

/-- English SharePoint/M365 response (app.py line 374). -/
def enSharePointResponse : String :=
  "We provide comprehensive SharePoint and Microsoft 365 solutions including custom development, workflow automation, migration services, and integration with other systems. We help organizations maximize their Microsoft 365 investment."

/-- English default response (app.py line 381). -/
def enDefaultResponse : String :=
  "I\x27d be happy to help you learn more about OrkinosAI\x27s services, expertise, or technology solutions. Feel free to ask about our web development, AI/ML, Azure cloud, SharePoint/M365, or other services!"

/-- `get_mock_response` (app.py lines 309-381): keyword-matched canned
response in the detected language, built from the configured
knowledge base. -/
def get_mock_response (config : Option Config) (user_message : String) : String :=
  let message_lower := pyLower user_message
  let detected_lang := detect_language user_message
  let is_turkish := detected_lang = "tr"
  let kb := kbOf config
  if is_turkish then
    if ["merhaba", "selam", "hey"].any (fun w => pyIn w message_lower) then
      trGreetingResponse
    else if pyIn "orkinosai" message_lower || pyIn "hakkında" message_lower then
      let services := kbServices kb
      let services_text := String.intercalate "\n" ((services.take 5).map (fun s => "• " ++ s))
      "OrkinosAI, şu alanlarda uzmanlaşmış bir teknoloji danışmanlık şirketidir:\n\n"
        ++ services_text
        ++ "\n\nAzure, AI/ML ve modern web geliştirme konularında uzmanlığa sahip bir Microsoft İş Ortağıyız."
    else if pyIn "hizmet" message_lower || pyIn "servis" message_lower then
      let services := kbServices kb
      let services_text := String.intercalate "\n" (services.map (fun s => "• " ++ s))
      "OrkinosAI kapsamlı teknoloji hizmetleri sunmaktadır:\n\n"
        ++ services_text
        ++ "\n\nHangi hizmet hakkında daha fazla bilgi edinmek istersiniz?"
    else if pyIn "yapay zeka" message_lower || pyIn "ai" message_lower
        || pyIn "makine öğrenmesi" message_lower then
      trAIResponse
    else if pyIn "azure" message_lower || pyIn "bulut" message_lower then
      trAzureResponse
    else if pyIn "iletişim" message_lower || pyIn "ulaş" message_lower
        || pyIn "email" message_lower || pyIn "telefon" message_lower then
      let website := kbWebsite kb
      "Bize web sitemiz " ++ website
        ++ " üzerinden veya sitemizdeki iletişim formu aracılığıyla ulaşabilirsiniz. Teknoloji ihtiyaçlarınız hakkında konuşmak isteriz!"
    else
      trDefaultResponse
  else
    if ["hello", "hi", "hey"].any (fun w => pyIn w message_lower) then
      enGreetingResponse
    else if pyIn "orkinosai" message_lower || pyIn "about" message_lower then
      let services := kbServices kb
      let services_text := String.intercalate "\n" ((services.take 5).map (fun s => "• " ++ s))
      "OrkinosAI is a technology consultancy specializing in:\n\n"
        ++ services_text
        ++ "\n\nWe\x27re a Microsoft Partner with expertise in Azure, AI/ML, and modern web development."
    else if pyIn "service" message_lower then
      let services := kbServices kb
      let services_text := String.intercalate "\n" (services.map (fun s => "• " ++ s))
      "OrkinosAI offers comprehensive technology services:\n\n"
        ++ services_text
        ++ "\n\nWhich service would you like to know more about?"
    else if pyIn "web" message_lower
        && (pyIn "develop" message_lower || pyIn "site" message_lower) then
      enWebResponse
    else if pyIn "ai" message_lower || pyIn "artificial intelligence" message_lower
        || pyIn "machine learning" message_lower then
      enAIResponse
    else if pyIn "azure" message_lower || pyIn "cloud" message_lower then
      enAzureResponse
    else if pyIn "sharepoint" message_lower || pyIn "microsoft 365" message_lower
        || pyIn "m365" message_lower then
      enSharePointResponse
    else if pyIn "contact" message_lower || pyIn "reach" message_lower
        || pyIn "email" message_lower || pyIn "phone" message_lower then
      let website := kbWebsite kb
      "You can reach OrkinosAI through our website at " ++ website
        ++ " or use the contact form on our website. We\x27d love to discuss how we can help with your technology needs!"
    else
      enDefaultResponse

/-- One `{role, content}` entry of a conversation (request history and the
message list sent to the model). -/
structure ChatMessage where
  role : String
  content : String
deriving DecidableEq

/-- The parsed body of a `POST /api/chat` request: `message`, defaulting
to the empty string, and `history`, defaulting to the empty list. -/
structure ChatRequest where
  message : String
  history : List ChatMessage
deriving DecidableEq

/-- Outcome of the chat endpoint: a 200 body
`{message, source, error?}` or the 400 validation rejection. -/
inductive ChatResponse where
  | ok (message : String) (source : String) (error : Option String)
  | badRequest (error : String)
deriving DecidableEq

/-- The external model-call collaborator
(`azure_client.chat.completions.create` applied to the configured
parameters): takes the forwarded message sequence and returns the
assistant text, or raises (`Except.error` with the exception text). -/
def ModelCall : Type := List ChatMessage → Except String String

/-- Python `l[-10:]`: the last `n` entries of a list. -/
def lastN (n : Nat) (l : List α) : List α := l.drop (l.length - n)

/-- The message sequence built by `chat` (app.py lines 425-438): the system
prompt, then — when the history is non-empty — its last 10 entries (each
re-packed as `{role, content}`, the identity on well-formed entries), then
the current user message. -/
def buildMessages (enhanced_prompt : String) (conversation_history : List ChatMessage)
    (user_message : String) : List ChatMessage :=
  let messages := [⟨"system", enhanced_prompt⟩]
  let messages :=
    if conversation_history.isEmpty then messages
    else messages ++ lastN 10 conversation_history
  messages ++ [⟨"user", user_message⟩]

/-- The `/api/chat` handler `chat` (app.py lines 403-479) over explicit
collaborator values: the loaded configuration, the optional model client,
and the optional database connection.  The model-call parameters
(deployment name, token limit, temperature, …) are configuration reads
passed through to the collaborator and are absorbed into `ModelCall`. -/
def chat (config : Option Config) (azure_client : Option ModelCall)
    (db : Option DBResult) (req : ChatRequest) : ChatResponse :=
  let user_message := pyStrip req.message
  if user_message = "" then .badRequest "Message is required"
  else
    match azure_client with
    | some call =>
      let enhanced_prompt := build_enhanced_system_prompt config db (some user_message)
      let messages := buildMessages enhanced_prompt req.history user_message
      match call messages with
      | .ok assistant_message => .ok assistant_message "azure_openai" none
      | .error e => .ok (get_mock_response config user_message) "mock_fallback" (some e)
    | none => .ok (get_mock_response config user_message) "mock" none

/-- The process-global state read by the handlers: `config`,
`azure_client`, `db_connection` (set once at startup). -/
structure ProcState where
  config : Option Config
  azure_client : Option ModelCall
  db_connection : Option DBResult

/-- `get_training_data_from_db` as a state transformer over the globals:
it declares `global db_connection` but never assigns it, so the state is
returned unchanged. -/
def get_training_data_ST (s : ProcState) : Option String × ProcState :=
  (get_training_data_from_db s.db_connection, s)

/-- `build_enhanced_system_prompt` as a state transformer over the
globals: it declares `global config` but never assigns it, and threads the
state through its call to `get_training_data_from_db`. -/
def build_enhanced_system_prompt_ST (s : ProcState) (user_message : Option String) :
    String × ProcState :=
  let base_prompt := basePromptOf s.config ++ languageDirective user_message
  let (training_data, s1) := get_training_data_ST s
  ((match training_data with
    | some td =>
      if td = "" then base_prompt
      else
        base_prompt
          ++ "\n\nYou have been trained on the following information about OrkinosAI and its team:\n\n"
          ++ td
          ++ "\n\nUse this information to provide accurate, specific, and helpful responses. Always cite the website or LinkedIn profile when relevant."
    | none => base_prompt), s1)

/-- `get_mock_response` as a state transformer over the globals: it only
reads `config`. -/
def get_mock_response_ST (s : ProcState) (user_message : String) : String × ProcState :=
  (get_mock_response s.config user_message, s)

/-- The chat handler as a state transformer over the process globals,
threading the state through every helper it invokes.  No handler assigns
any global, so every path hands the state back. -/
def chatST (s : ProcState) (req : ChatRequest) : ChatResponse × ProcState :=
  let user_message := pyStrip req.message
  if user_message = "" then (.badRequest "Message is required", s)
  else
    match s.azure_client with
    | some call =>
      let (enhanced_prompt, s1) := build_enhanced_system_prompt_ST s (some user_message)
      let messages := buildMessages enhanced_prompt req.history user_message
      (match call messages with
       | .ok assistant_message => (.ok assistant_message "azure_openai" none, s1)
       | .error e =>
         let (mock, s2) := get_mock_response_ST s1 user_message
         (.ok mock "mock_fallback" (some e), s2))
    | none =>
      let (mock, s1) := get_mock_response_ST s user_message
      (.ok mock "mock" none, s1)

/-! ### Helper lemmas -/

theorem startsWithL_self_append (n t : List Char) : startsWithL n (n ++ t) = true := by
  induction n with
  | nil => rfl
  | cons a as ih => simp [startsWithL, ih]

theorem containsSub_of_startsWithL {n l : List Char} (h : startsWithL n l = true) :
    containsSub n l = true := by
  cases l with
  | nil => simpa [containsSub] using h
  | cons c rest => simp [containsSub, h]

theorem containsSub_cons {n l : List Char} (c : Char) (h : containsSub n l = true) :
    containsSub n (c :: l) = true := by
  simp [containsSub, h]

theorem containsSub_append_left {n l : List Char} (s : List Char)
    (h : containsSub n l = true) : containsSub n (s ++ l) = true := by
  induction s with
  | nil => simpa using h
  | cons a as ih => simpa using containsSub_cons a ih

/-- A string occurs in any string it begins. -/
theorem pyIn_self_append (a b : String) : pyIn a (a ++ b) = true := by
  unfold pyIn
  rw [String.data_append]
  exact containsSub_of_startsWithL (startsWithL_self_append a.data b.data)

/-- Occurrence is preserved by prepending. -/
theorem pyIn_append_right (n s t : String) (h : pyIn n t = true) :
    pyIn n (s ++ t) = true := by
  unfold pyIn at h ⊢
  rw [String.data_append]
  exact containsSub_append_left s.data h

/-- A non-empty left factor makes the appended string non-empty. -/
theorem str_append_ne_empty {a : String} (b : String) (h : a ≠ "") : a ++ b ≠ "" := by
  intro hab
  apply h
  have : a.data ++ b.data = [] := by
    have := String.ext_iff.mp hab
    simpa [String.data_append] using this
  exact String.ext_iff.mpr (List.append_eq_nil.mp this).1

theorem mem_dropWhile_of_mem {p : Char → Bool} {c : Char} (hp : p c = false) :
    ∀ {l : List Char}, c ∈ l → c ∈ l.dropWhile p := by
  intro l hl
  induction l with
  | nil => cases hl
  | cons a as ih =>
    rw [List.dropWhile_cons]
    by_cases ha : p a = true
    · rw [if_pos ha]
      rcases List.mem_cons.mp hl with rfl | h
      · rw [hp] at ha; cases ha
      · exact ih h
    · rw [if_neg ha]
      exact hl

/-- A non-whitespace character survives `strip`. -/
theorem mem_stripList_of_mem {c : Char} (hc : isPySpace c = false) {l : List Char}
    (hl : c ∈ l) : c ∈ stripList l := by
  unfold stripList
  rw [List.mem_reverse]
  exact mem_dropWhile_of_mem hc (List.mem_reverse.mpr (mem_dropWhile_of_mem hc hl))

/-! ### C1 -/

/-- C1 (counterexample): the input "ç" consists of a character of the set
{ç, ğ, ı, ö, ş, ü}, yet `detect_language` returns English, because the
length-below-3 check precedes the Turkish-character check. -/
theorem C1_counterexample :
    'ç' ∈ turkish_chars ∧ 'ç' ∈ "ç".data ∧ detect_language "ç" ≠ "tr" := by
  decide

/-- C1 (amended): for every input string whose lower-cased, trimmed form
has at least 3 characters, if the input contains a character of the set
{ç, ğ, ı, ö, ş, ü} then `detect_language` returns Turkish, regardless of
the rest of the content. -/
theorem C1_amended_turkish_char_detection (text : String)
    (h3 : 3 ≤ (pyStrip (pyLower text)).length)
    (hc : ∃ c ∈ turkish_chars, c ∈ text.data) :
    detect_language text = "tr" := by
  obtain ⟨c, hct, hcm⟩ := hc
  have hfix : pyCharLower c = c ∧ isPySpace c = false := by
    fin_cases hct <;> exact ⟨rfl, rfl⟩
  have h1 : c ∈ (pyLower text).data := List.mem_map.mpr ⟨c, hcm, hfix.1⟩
  have h2 : c ∈ (pyStrip (pyLower text)).data := mem_stripList_of_mem hfix.2 h1
  have hany : turkish_chars.any (fun ch => (pyStrip (pyLower text)).data.contains ch) = true := by
    rw [List.any_eq_true]
    exact ⟨c, hct, by simpa using h2⟩
  unfold detect_language
  rw [if_neg (by omega), if_pos hany]

/-- C1 witness for the amended theorem at the concrete input "çab". -/
theorem C1_amended_witness : detect_language "çab" = "tr" :=
  C1_amended_turkish_char_detection "çab" (by decide) (by decide)

/-! ### C8 -/

/-- C8: any input whose lower-cased, trimmed form has fewer than 3
characters is classified as English; in particular `""` and `"hi"`. -/
theorem C8_short_input_english (text : String)
    (h : (pyStrip (pyLower text)).length < 3) :
    detect_language text = "en" ∧ detect_language "" = "en" ∧ detect_language "hi" = "en" := by
  refine ⟨?_, by decide, by decide⟩
  unfold detect_language
  rw [if_pos h]

/-- C8 witness at the concrete input "hi". -/
theorem C8_witness : detect_language "hi" = "en" :=
  (C8_short_input_english "hi" (by decide)).1

/-! ### C2 -/

/-- C2: with a configured model client, whenever the model call raises,
`chat` catches the exception locally and returns the canned response from
`get_mock_response`, tagged "mock_fallback", with the error field holding
the captured error text; the result is a 200 body, never a propagated
failure. -/
theorem C2_model_error_falls_back (config : Option Config) (db : Option DBResult)
    (req : ChatRequest) (f : ModelCall) (e : String)
    (hmsg : pyStrip req.message ≠ "")
    (hf : f (buildMessages
        (build_enhanced_system_prompt config db (some (pyStrip req.message)))
        req.history (pyStrip req.message)) = .error e) :
    chat config (some f) db req
      = .ok (get_mock_response config (pyStrip req.message)) "mock_fallback" (some e) := by
  unfold chat
  rw [if_neg hmsg]
  dsimp only
  rw [hf]

/-- C2 witness: a model call that always raises, on the message "Merhaba". -/
theorem C2_witness :
    chat none (some (fun _ => Except.error "boom")) none ⟨"Merhaba", []⟩
      = .ok (get_mock_response none (pyStrip "Merhaba")) "mock_fallback" (some "boom") :=
  C2_model_error_falls_back none none ⟨"Merhaba", []⟩ (fun _ => Except.error "boom") "boom"
    (by decide) rfl

/-! ### C3 -/

/-- C3: a request whose message is empty after trimming is rejected with
the 400 validation error "Message is required", and the outcome is
independent of the configuration, the model client, and the database —
so neither the model call, nor the prompt composer, nor the canned
fallback influences it, and no 200 chat body is produced. -/
theorem C3_empty_message_rejected (config config' : Option Config)
    (azure azure' : Option ModelCall) (db db' : Option DBResult)
    (req : ChatRequest) (h : pyStrip req.message = "") :
    chat config azure db req = .badRequest "Message is required" ∧
    chat config azure db req = chat config' azure' db' req := by
  constructor
  · unfold chat; rw [if_pos h]
  · unfold chat; rw [if_pos h, if_pos h]

/-- C3 witness: a whitespace-only message with two unrelated collaborator
environments. -/
theorem C3_witness :
    chat none none none ⟨"   ", []⟩ = .badRequest "Message is required" ∧
    chat none none none ⟨"   ", []⟩
      = chat none (some (fun _ => Except.ok "hi there")) none ⟨"   ", []⟩ :=
  C3_empty_message_rejected none none none (some (fun _ => Except.ok "hi there")) none none
    ⟨"   ", []⟩ (by decide)

/-! ### C5 -/

/-- C5 (counterexample): with a 15-entry history, the sequence forwarded
to the model call has 12 messages (1 system + last 10 history + 1 user),
not 17 as the claim counts. -/
theorem C5_counterexample :
    (buildMessages
        (build_enhanced_system_prompt none none (some (pyStrip "hello there")))
        ((List.range 15).map (fun i => ⟨"user", toString i⟩))
        (pyStrip "hello there")).length = 12 ∧
    (buildMessages
        (build_enhanced_system_prompt none none (some (pyStrip "hello there")))
        ((List.range 15).map (fun i => ⟨"user", toString i⟩))
        (pyStrip "hello there")).length ≠ 17 := by
  constructor <;> decide

/-- C5 (amended): with a history of 15 entries, the sequence forwarded to
the model call is the system prompt, then exactly the last 10 history
entries in their original order, then the current user message — 12
messages in all; `chat` applies the model client only to that sequence. -/
theorem C5_history_truncation (config : Option Config) (db : Option DBResult)
    (req : ChatRequest) (h15 : req.history.length = 15)
    (hmsg : pyStrip req.message ≠ "") :
    buildMessages (build_enhanced_system_prompt config db (some (pyStrip req.message)))
        req.history (pyStrip req.message)
      = ⟨"system", build_enhanced_system_prompt config db (some (pyStrip req.message))⟩
          :: (req.history.drop 5 ++ [⟨"user", pyStrip req.message⟩]) ∧
    (⟨"system", build_enhanced_system_prompt config db (some (pyStrip req.message))⟩
          :: (req.history.drop 5 ++ [⟨"user", pyStrip req.message⟩]) : List ChatMessage).length
      = 12 ∧
    ∀ f : ModelCall,
      chat config (some f) db req
        = chat config
            (some (fun _ => f (⟨"system",
                build_enhanced_system_prompt config db (some (pyStrip req.message))⟩
              :: (req.history.drop 5 ++ [⟨"user", pyStrip req.message⟩]))))
            db req := by
  have hne : req.history ≠ [] := by
    intro hnil; rw [hnil] at h15; cases h15
  have hb : buildMessages (build_enhanced_system_prompt config db (some (pyStrip req.message)))
        req.history (pyStrip req.message)
      = ⟨"system", build_enhanced_system_prompt config db (some (pyStrip req.message))⟩
          :: (req.history.drop 5 ++ [⟨"user", pyStrip req.message⟩]) := by
    unfold buildMessages lastN
    dsimp only
    rw [if_neg (by simpa using hne), h15]
    simp
  refine ⟨hb, by simp [h15], ?_⟩
  intro f
  unfold chat
  dsimp only
  rw [if_neg hmsg, if_neg hmsg, hb]

/-- C5 witness: a concrete 15-entry history. -/
theorem C5_witness :
    buildMessages
        (build_enhanced_system_prompt none none (some (pyStrip "hello there")))
        ((List.range 15).map (fun i => ⟨"user", toString i⟩)) (pyStrip "hello there")
      = ⟨"system", build_enhanced_system_prompt none none (some (pyStrip "hello there"))⟩
          :: (((List.range 15).map (fun i => (⟨"user", toString i⟩ : ChatMessage))).drop 5
            ++ [⟨"user", pyStrip "hello there"⟩]) :=
  (C5_history_truncation none none
    ⟨"hello there", (List.range 15).map (fun i => ⟨"user", toString i⟩)⟩
    (by decide) (by decide)).1

/-! ### C4 -/

/-- C4: the canned response engine never fails and never returns an empty
string, for any non-empty message, in either language, under any
configuration (missing configuration and empty knowledge table included). -/
theorem C4_mock_response_nonempty (config : Option Config) (user_message : String)
    (_h : user_message ≠ "") : get_mock_response config user_message ≠ "" := by
  unfold get_mock_response
  dsimp only
  split_ifs <;>
    first
      | decide
      | (apply str_append_ne_empty; apply str_append_ne_empty; decide)

/-- C4 witness: the empty knowledge table (no configuration) and a message
in each language. -/
theorem C4_witness :
    get_mock_response none "hizmetleriniz nelerdir" ≠ "" ∧
    get_mock_response none "What services do you offer?" ≠ "" :=
  ⟨C4_mock_response_nonempty none "hizmetleriniz nelerdir" (by decide),
   C4_mock_response_nonempty none "What services do you offer?" (by decide)⟩

/-! ### C6 -/

theorem containsSub_nil (l : List Char) : containsSub [] l = true := by
  cases l <;> simp [containsSub, startsWithL]

/-- The empty string occurs in every string. -/
theorem pyIn_empty (s : String) : pyIn "" s = true := by
  unfold pyIn
  exact containsSub_nil s.data

/-- C6: the composed system prompt always contains the configured base
instructions; with database context present it also contains the context
text; with context absent it is exactly the base instructions followed by
the language directive. -/
theorem C6_prompt_composition (config : Option Config) (db : Option DBResult)
    (user_message : Option String) :
    pyIn (basePromptOf config) (build_enhanced_system_prompt config db user_message) = true ∧
    (get_training_data_from_db db = none →
      build_enhanced_system_prompt config db user_message
        = basePromptOf config ++ languageDirective user_message) ∧
    (∀ ctx, get_training_data_from_db db = some ctx →
      pyIn ctx (build_enhanced_system_prompt config db user_message) = true) := by
  cases hdb : get_training_data_from_db db with
  | none =>
    refine ⟨?_, fun _ => ?_, fun ctx hctx => ?_⟩
    · unfold build_enhanced_system_prompt
      rw [hdb]
      exact pyIn_self_append _ _
    · unfold build_enhanced_system_prompt
      rw [hdb]
    · cases hctx
  | some ctx =>
    by_cases hc : ctx = ""
    · subst hc
      refine ⟨?_, fun hnone => ?_, fun ctx' hctx' => ?_⟩
      · unfold build_enhanced_system_prompt
        rw [hdb]
        dsimp only
        rw [if_pos rfl]
        exact pyIn_self_append _ _
      · cases hnone
      · injection hctx' with hc'
        subst hc'
        exact pyIn_empty _
    · refine ⟨?_, fun hnone => ?_, fun ctx' hctx' => ?_⟩
      · unfold build_enhanced_system_prompt
        rw [hdb]
        dsimp only
        rw [if_neg hc]
        simp only [String.append_assoc]
        exact pyIn_self_append _ _
      · cases hnone
      · injection hctx' with hc'
        subst hc'
        unfold build_enhanced_system_prompt
        rw [hdb]
        dsimp only
        rw [if_neg hc]
        simp only [String.append_assoc]
        exact pyIn_append_right _ _ _ (pyIn_append_right _ _ _
          (pyIn_append_right _ _ _ (pyIn_self_append _ _)))

/-- C6 witness: a database returning one content row; the composed prompt
contains that block. -/
theorem C6_witness :
    pyIn "Page: T\nURL: u\n\nb"
      (build_enhanced_system_prompt none
        (some ⟨.ok [⟨"T", some "b", "u", none⟩], .ok none, .ok []⟩) none) = true :=
  (C6_prompt_composition none
      (some ⟨.ok [⟨"T", some "b", "u", none⟩], .ok none, .ok []⟩) none).2.2
    "Page: T\nURL: u\n\nb" (by decide)

/-! ### C7 -/

/-- C7: `get_training_data_from_db` is a total function into `Option`
(no exception reaches its caller): an absent connection, a failing query,
or zero retrieved rows each yield the distinguished `none`, and otherwise
the retrieved blocks are joined with the fixed separator "\n\n---\n\n". -/
theorem C7_training_data_characterization (db : Option DBResult) :
    (db = none → get_training_data_from_db db = none) ∧
    (∀ d, db = some d →
      (dbFailed d = true → get_training_data_from_db db = none) ∧
      (dbBlocks d = [] → get_training_data_from_db db = none) ∧
      (dbFailed d = false → dbBlocks d ≠ [] →
        get_training_data_from_db db
          = some (String.intercalate "\n\n---\n\n" (dbBlocks d)))) := by
  refine ⟨fun h => by rw [h]; rfl, fun d hd => ?_⟩
  subst hd
  obtain ⟨w, p, t⟩ := d
  cases w <;> cases p <;> cases t <;>
    refine ⟨fun hf => ?_, fun hb => ?_, fun hf hb => ?_⟩ <;>
      simp_all [get_training_data_from_db, dbFailed, dbBlocks, Except.toOption]

/-- C7 witness: a database with one content row; the result is the joined
block list. -/
theorem C7_witness :
    get_training_data_from_db
        (some ⟨.ok [⟨"T", some "b", "u", none⟩], .ok none, .ok []⟩)
      = some (String.intercalate "\n\n---\n\n"
          (dbBlocks ⟨.ok [⟨"T", some "b", "u", none⟩], .ok none, .ok []⟩)) :=
  (((C7_training_data_characterization
      (some ⟨.ok [⟨"T", some "b", "u", none⟩], .ok none, .ok []⟩)).2
    ⟨.ok [⟨"T", some "b", "u", none⟩], .ok none, .ok []⟩ rfl).2.2)
    (by decide) (by decide)

/-! ### C9 -/

/-- C9: handling a chat request leaves the process-global state — the
Configuration in particular — unchanged: the chat handler and every helper
it invokes only read the globals, so the state after the request equals
the state before. -/
theorem C9_config_read_only (s : ProcState) (req : ChatRequest) :
    (chatST s req).2.config = s.config ∧ (chatST s req).2 = s := by
  have h2 : (chatST s req).2 = s := by
    unfold chatST build_enhanced_system_prompt_ST get_training_data_ST get_mock_response_ST
    dsimp only
    by_cases h : pyStrip req.message = ""
    · rw [if_pos h]
    · rw [if_neg h]
      cases hac : s.azure_client with
      | none => rfl
      | some call =>
        dsimp only
        split <;> rfl
  exact ⟨by rw [h2], h2⟩

/-! ### C10 -/

/-- C10: English canned-keyword matching is substring containment, not
whole-word matching: any message classified as English whose lower-cased
form contains "hi" anywhere (e.g. inside "which" or "this") gets the
greeting response, and "ai" inside "email" makes "what is your email" hit
the AI/ML branch before the contact branch. -/
theorem C10_substring_matching (config : Option Config) (msg : String)
    (hen : detect_language msg = "en")
    (hhi : pyIn "hi" (pyLower msg) = true) :
    get_mock_response config msg = enGreetingResponse ∧
    detect_language "what is your email" = "en" ∧
    get_mock_response config "what is your email" = enAIResponse := by
  refine ⟨?_, by decide, ?_⟩
  · unfold get_mock_response
    dsimp only
    rw [if_neg (by rw [hen]; decide)]
    rw [if_pos (by rw [List.any_eq_true]; exact ⟨"hi", by decide, hhi⟩)]
  · unfold get_mock_response
    dsimp only
    rw [if_neg (by decide), if_neg (by decide), if_neg (by decide),
      if_neg (by decide), if_neg (by decide), if_pos (by decide)]

/-- C10 witness: "this is a test" contains "hi" inside "this" and is
classified as English, yet gets the greeting response. -/
theorem C10_witness :
    get_mock_response none "this is a test" = enGreetingResponse :=
  (C10_substring_matching none "this is a test" (by decide) (by decide)).1
